import Mathlib

/-!
Verification of cred-leak-breachalarm-simple (src/main.py).

The program is a one-shot CLI: it parses exactly one of `--email`,
`--org`, `--tech`; for an email it issues one HTTP GET to the
Have I Been Pwned API and branches on the status code; for the other two
it runs placeholder stubs.  We embed the status-code branching of
`BreachAlarm.check_hibp`, the email regex of `is_valid_email`, the
dispatch and validation of `main`, and the mutually exclusive argument
group of `setup_argparse`, and prove or refute the specified properties.
-/

namespace BreachAlarm

/-- Character class `[a-zA-Z0-9._%+-]` of the local part of the email
regex at src/main.py:169 (ASCII, as Python `re` with this pattern). -/
def localChar (c : Char) : Bool :=
  c.isAlphanum || c == '.' || c == '_' || c == '%' || c == '+' || c == '-'

/-- Character class `[a-zA-Z0-9.-]` of the domain part of the regex. -/
def domChar (c : Char) : Bool :=
  c.isAlphanum || c == '.' || c == '-'

/-- Character class `[a-zA-Z]` of the top-level-domain part. -/
def tldChar (c : Char) : Bool := c.isAlpha

/-- Matches `[a-zA-Z]{2,}` against the whole remaining input. -/
def isTld (cs : List Char) : Bool :=
  decide (2 ≤ cs.length) && cs.all tldChar

/-- Matches `[a-zA-Z0-9.-]*\.[a-zA-Z]{2,}` against the whole remaining
input: at a literal dot the match may either stop the `+` and take the
dot of the pattern (then a TLD must follow to the end) or keep the dot
inside the `[a-zA-Z0-9.-]+` class and continue. -/
def domRest : List Char → Bool
  | [] => false
  | c :: rest =>
    if c == '.' then isTld rest || domRest rest
    else domChar c && domRest rest

/-- Matches `[a-zA-Z0-9.-]+\.[a-zA-Z]{2,}` (non-empty domain, a dot, a
TLD of length at least two) against the whole remaining input. -/
def domainMatch : List Char → Bool
  | [] => false
  | c :: rest => domChar c && domRest rest

/-- Continues the local part after at least one character: stops at the
first `@` (the class `[a-zA-Z0-9._%+-]` contains no `@`). -/
def localRest : List Char → Bool
  | [] => false
  | c :: rest =>
    if c == '@' then domainMatch rest
    else localChar c && localRest rest

/-- Matches `[a-zA-Z0-9._%+-]+@[a-zA-Z0-9.-]+\.[a-zA-Z]{2,}` against the
whole input. -/
def emailCore : List Char → Bool
  | [] => false
  | c :: rest => localChar c && localRest rest

/-- Python's `$` in a non-MULTILINE pattern also matches just before a
single newline at the very end of the string; `re.match` with
`^...$` therefore accepts one trailing newline. -/
def stripTrailingNL (cs : List Char) : List Char :=
  match cs.getLast? with
  | some c => if c == '\n' then cs.dropLast else cs
  | none => cs

/-- Embeds `is_valid_email` (src/main.py:158-170):
`bool(re.match(r"^[a-zA-Z0-9._%+-]+@[a-zA-Z0-9.-]+\.[a-zA-Z]{2,}$", email))`. -/
def is_valid_email (s : String) : Bool :=
  emailCore (stripTrailingNL s.data)

/-- Whitespace stripped by Python `str.strip()`. -/
def pyWS (c : Char) : Bool :=
  c == ' ' || c == '\t' || c == '\n' || c == '\r' || c == '\x0b' || c == '\x0c'

/-- Embeds Python `str.strip()` (used at src/main.py:145,152). -/
def pyStrip (s : String) : String :=
  ⟨((s.data.dropWhile pyWS).reverse.dropWhile pyWS).reverse⟩

/-- A parsed JSON object of the 200 response body, restricted to string
fields (only the string field `Name` is ever read by the code). -/
abbrev JObj := List (String × String)

/-- A single outgoing HTTP request, as built at src/main.py:44-45. -/
structure Request where
  url : String
  headers : List (String × String)
  deriving DecidableEq, Repr

/-- Base of the URL f-string at src/main.py:44. -/
def hibpBase : String := "https://haveibeenpwned.com/api/v3/breachedaccount/"

/-- The one request `check_hibp` issues: the email is interpolated into
the URL by the f-string as-is, and the header is the literal
`anonymous` (src/main.py:44-45). -/
def mkRequest (email : String) : Request :=
  { url := hibpBase ++ email, headers := [("hibp-api-key", "anonymous")] }

/-- Outcome of the single HTTP exchange as seen by the client: either a
response with a status code and (for 200) a body already parsed as a
list of JSON objects, or a transport failure (`aiohttp.ClientError`:
timeout, DNS failure, connection refused) with its message. -/
inductive HttpOutcome where
  | response (status : Nat) (body : List JObj)
  | transportError (cause : String)
  deriving DecidableEq, Repr

/-- One log/console line emitted by `check_hibp`, one constructor per
emission site in src/main.py:50-69. -/
inductive LogEvent where
  | foundInBreaches (email : String) (names : List String)
  | notFoundInfo (email : String)
  | rateLimitWarning
  | statusCodeError (status : Nat)
  | clientError (cause : String)
  | unexpectedError (cause : String)
  deriving DecidableEq, Repr

/-- Severity level of the logging call behind each event. -/
inductive LogLevel where
  | info
  | warning
  | error
  deriving DecidableEq, Repr

/-- The logging level used at each emission site. -/
def LogEvent.level : LogEvent → LogLevel
  | .foundInBreaches _ _ => .info
  | .notFoundInfo _ => .info
  | .rateLimitWarning => .warning
  | .statusCodeError _ => .error
  | .clientError _ => .error
  | .unexpectedError _ => .error

/-- Embeds the list comprehension `[breach['Name'] for breach in data]`
(src/main.py:49): Python raises `KeyError` at the first object without
a `Name` key, so the whole comprehension yields either all names in
order or an exception. -/
def extractNames : List JObj → Except String (List String)
  | [] => .ok []
  | o :: rest =>
    match List.lookup "Name" o with
    | some n =>
      match extractNames rest with
      | .ok ns => .ok (n :: ns)
      | .error e => .error e
    | none => .error "KeyError: Name"

/-- Everything observable about one call of `check_hibp`: the requests
issued, the Python return value (`Optional[List[str]]`), and the
log/console lines. -/
structure HibpRun where
  requests : List Request
  result : Option (List String)
  events : List LogEvent
  deriving DecidableEq, Repr

/-- Embeds `BreachAlarm.check_hibp` (src/main.py:32-70) as a function of
the outcome of its single GET request.  The if/elif chain on
`response.status` is modelled branch by branch; a `KeyError` inside the
200 comprehension is caught by the outer `except Exception` handler and
turned into `return None`; a transport failure is caught by
`except aiohttp.ClientError` and also returns `None`.  Totality of this
function reflects that no exception escapes the try block. -/
def check_hibp (email : String) (out : HttpOutcome) : HibpRun :=
  match out with
  | .transportError c =>
    { requests := [mkRequest email], result := none, events := [.clientError c] }
  | .response status body =>
    if status = 200 then
      match extractNames body with
      | .ok ns =>
        { requests := [mkRequest email], result := some ns,
          events := [.foundInBreaches email ns] }
      | .error c =>
        { requests := [mkRequest email], result := none,
          events := [.unexpectedError c] }
    else if status = 404 then
      { requests := [mkRequest email], result := none, events := [.notFoundInfo email] }
    else if status = 429 then
      { requests := [mkRequest email], result := none, events := [.rateLimitWarning] }
    else
      { requests := [mkRequest email], result := none,
        events := [.statusCodeError status] }

/-- The three optional CLI values as stored by `argparse` after the
mutually exclusive group accepted the command line. -/
structure Args where
  email : Option String
  org_name : Option String
  technology : Option String
  deriving DecidableEq, Repr

/-- Number of the three mutually exclusive options that were provided. -/
def providedCount (e o t : Option String) : Nat :=
  (if e.isSome then 1 else 0) + (if o.isSome then 1 else 0) +
    (if t.isSome then 1 else 0)

/-- Models the `argparse` parser configured by `setup_argparse`
(src/main.py:121-127): the three options form a mutually exclusive
group with `required=True`, so `parse_args` errors out (process exit 2)
when more than one option, or none, is given, before any component
logic runs; otherwise it returns the stored values. -/
def parse_args (e o t : Option String) : Except Nat Args :=
  if 1 < providedCount e o t then .error 2
  else if providedCount e o t = 0 then .error 2
  else .ok { email := e, org_name := o, technology := t }

/-- Python truthiness of an optional string (`if args.email:` etc.):
true exactly for a present, non-empty string. -/
def truthy : Option String → Bool
  | none => false
  | some s => s ≠ ""

/-- What one run of `main` (src/main.py:130-156) did after argument
parsing succeeded. -/
inductive MainOutcome where
  | exited (code : Nat)
  | ranEmail (run : HibpRun)
  | ranOrgStub (name : String)
  | ranTechStub (name : String)
  | didNothing
  deriving DecidableEq, Repr

/-- Process exit status of a `main` outcome: `sys.exit(1)` gives 1, any
normal completion of `main` gives 0. -/
def exitCode : MainOutcome → Nat
  | .exited c => c
  | _ => 0

/-- Number of network requests a `main` outcome issued. -/
def networkCalls : MainOutcome → Nat
  | .ranEmail r => r.requests.length
  | _ => 0

/-- Embeds the body of `main` after `parse_args` (src/main.py:137-156):
truthiness dispatch on `args.email` / `args.org_name` /
`args.technology`, email-format validation with `sys.exit(1)`, the
`strip()` emptiness checks with `sys.exit(1)`, and the fall-through
(no branch taken) that ends `main` normally.  `out` is the outcome the
network would give to the single request of the email path. -/
def mainRun (args : Args) (out : HttpOutcome) : MainOutcome :=
  if truthy args.email then
    let e := args.email.getD ""
    if ¬ is_valid_email e then .exited 1
    else .ranEmail (check_hibp e out)
  else if truthy args.org_name then
    let o := args.org_name.getD ""
    if pyStrip o = "" then .exited 1 else .ranOrgStub o
  else if truthy args.technology then
    let t := args.technology.getD ""
    if pyStrip t = "" then .exited 1 else .ranTechStub t
  else .didNothing

/-- Result of a whole invocation: either `argparse` rejected the
command line (before any component logic), or `main` ran. -/
inductive ProgResult where
  | argError
  | finished (m : MainOutcome)
  deriving DecidableEq, Repr

/-- One whole invocation of the program on a parsed command line. -/
def program (e o t : Option String) (out : HttpOutcome) : ProgResult :=
  match parse_args e o t with
  | .error _ => .argError
  | .ok args => .finished (mainRun args out)

/-- Spec-side definition for comparison (from the spec's words
`/api/v3/breachedaccount/{urlEncodedEmail}`): standard percent-encoding
of a string into a URL path segment, keeping the unreserved characters
`A-Z a-z 0-9 - . _ ~` and encoding every other character as `%XX`. -/
def specUrlEncode (s : String) : String :=
  ⟨s.data.foldr (fun c acc =>
    if c.isAlphanum || c == '-' || c == '.' || c == '_' || c == '~' then c :: acc
    else
      let n := c.toNat
      let hex := fun m => if m < 10 then Char.ofNat (48 + m) else Char.ofNat (55 + m)
      '%' :: hex (n / 16) :: hex (n % 16) :: acc) []⟩

/-- If every object of the body carries a `Name` field with the listed
values in order, the comprehension succeeds with exactly those values. -/
theorem extractNames_ok : ∀ (body : List JObj) (ns : List String),
    body.map (List.lookup "Name") = ns.map some → extractNames body = .ok ns := by
  intro body
  induction body with
  | nil =>
    intro ns h
    cases ns with
    | nil => rfl
    | cons n ns' => simp at h
  | cons o rest ih =>
    intro ns h
    cases ns with
    | nil => simp at h
    | cons n ns' =>
      simp only [List.map_cons, List.cons.injEq] at h
      obtain ⟨h1, h2⟩ := h
      simp [extractNames, h1, ih ns' h2]

/-- If some object of the body lacks a `Name` field, the comprehension
raises (models the `KeyError`). -/
theorem extractNames_err : ∀ (body : List JObj),
    (∃ o ∈ body, List.lookup "Name" o = none) →
    ∃ msg, extractNames body = .error msg := by
  intro body
  induction body with
  | nil =>
    intro h
    simp at h
  | cons o rest ih =>
    intro h
    cases hl : List.lookup "Name" o with
    | none => exact ⟨"KeyError: Name", by simp [extractNames, hl]⟩
    | some n =>
      obtain ⟨o', ho', hno'⟩ := h
      rcases List.mem_cons.mp ho' with rfl | hmem
      · rw [hl] at hno'
        exact absurd hno' (by simp)
      · obtain ⟨msg, hmsg⟩ := ih ⟨o', hmem, hno'⟩
        exact ⟨msg, by simp [extractNames, hl, hmsg]⟩

/-- C1: for every 200 response whose body is a sequence of JSON objects
each carrying a `Name` field, `check_hibp` returns the ordered sequence
of those `Name` values in the order received. -/
theorem C1_hibp_200_returns_names_in_order (e : String) (body : List JObj)
    (ns : List String) (h : body.map (List.lookup "Name") = ns.map some) :
    (check_hibp e (.response 200 body)).result = some ns := by
  have hx : extractNames body = .ok ns := extractNames_ok body ns h
  simp [check_hibp, hx]

/-- C1 witness: the body `[{"Name":"Adobe"},{"Name":"LinkedIn"}]` yields
`["Adobe","LinkedIn"]`. -/
theorem C1_hibp_200_returns_names_in_order_witness :
    ([[("Name", "Adobe")], [("Name", "LinkedIn")]] : List JObj).map (List.lookup "Name")
      = (["Adobe", "LinkedIn"] : List String).map some ∧
    (check_hibp "a@b.com"
      (.response 200 [[("Name", "Adobe")], [("Name", "LinkedIn")]])).result
      = some ["Adobe", "LinkedIn"] :=
  ⟨by decide, C1_hibp_200_returns_names_in_order "a@b.com" _ _ (by decide)⟩

/-- C2 counterexample: the value `check_hibp` returns for a 429 response
is `None`, the very value it returns for a 404 response, so the returned
result is not distinguishable from the NotFound result as the claim
states. -/
theorem C2_429_result_equals_404_result :
    (check_hibp "a@b.com" (.response 429 [])).result
      = (check_hibp "a@b.com" (.response 404 [])).result ∧
    (check_hibp "a@b.com" (.response 429 [])).result = none :=
  ⟨rfl, rfl⟩

/-- C2 amended: for every 429 response, `check_hibp` returns `None` (the
same return value as for 404); the rate-limit condition is reported only
through a warning log line and console message, and no retry of the
request is issued (exactly the one request is made). -/
theorem C2_429_prints_warning_no_retry (e : String) (body : List JObj) :
    (check_hibp e (.response 429 body)).result = none ∧
    (check_hibp e (.response 429 body)).events = [.rateLimitWarning] ∧
    (check_hibp e (.response 429 body)).requests = [mkRequest e] :=
  ⟨rfl, rfl, rfl⟩

/-- C3 counterexample: for a 500 response `check_hibp` returns `None`,
the very value it returns for a 404 response — not a value carrying the
status code 500 as the claim states. -/
theorem C3_500_result_equals_404_result :
    (check_hibp "a@b.com" (.response 500 [])).result
      = (check_hibp "a@b.com" (.response 404 [])).result ∧
    (check_hibp "a@b.com" (.response 500 [])).result = none :=
  ⟨rfl, rfl⟩

/-- C3 amended: for every status other than 200, 404 and 429,
`check_hibp` returns `None` and reports the upstream error through an
error-level log line and console message carrying that status code. -/
theorem C3_other_status_logs_code (e : String) (s : Nat) (body : List JObj)
    (h200 : s ≠ 200) (h404 : s ≠ 404) (h429 : s ≠ 429) :
    (check_hibp e (.response s body)).result = none ∧
    (check_hibp e (.response s body)).events = [.statusCodeError s] ∧
    (LogEvent.statusCodeError s).level = .error := by
  refine ⟨?_, ?_, rfl⟩ <;> simp [check_hibp, h200, h404, h429]

/-- C3 witness: the 500 instance. -/
theorem C3_other_status_logs_code_witness :
    (500 : Nat) ≠ 200 ∧ (500 : Nat) ≠ 404 ∧ (500 : Nat) ≠ 429 ∧
    ((check_hibp "a@b.com" (.response 500 [])).result = none ∧
     (check_hibp "a@b.com" (.response 500 [])).events = [.statusCodeError 500] ∧
     (LogEvent.statusCodeError 500).level = .error) :=
  ⟨by decide, by decide, by decide,
   C3_other_status_logs_code "a@b.com" 500 [] (by decide) (by decide) (by decide)⟩

/-- C4 counterexample: the value `check_hibp` returns on a transport
failure is `None` whatever the cause — equal for a timeout and for a
connection refusal — so the returned value carries no underlying cause
as the claim states. -/
theorem C4_transport_result_carries_no_cause :
    (check_hibp "a@b.com" (.transportError "timeout")).result
      = (check_hibp "a@b.com" (.transportError "connection refused")).result ∧
    (check_hibp "a@b.com" (.transportError "timeout")).result = none :=
  ⟨rfl, rfl⟩

/-- C4 amended: for every transport failure, the `aiohttp.ClientError`
is caught inside `check_hibp`, which returns `None` and reports the
failure through an error-level log line and console message carrying
the underlying cause; no exception propagates out of `check_hibp` (it
is a total function of the outcome). -/
theorem C4_transport_caught_and_logged (e c : String) :
    check_hibp e (.transportError c)
      = { requests := [mkRequest e], result := none, events := [.clientError c] } ∧
    (LogEvent.clientError c).level = .error :=
  ⟨rfl, rfl⟩

/-- C5: the empty string fails the address-format regex, yet `main`
does not exit with status 1 for it: the truthiness test
`if args.email:` is false for the empty string, so `main` falls through
every branch, performs no validation, makes no network call, and ends
normally with exit status 0 instead of signalling InvalidInput; a
non-empty regex-failing string such as `"notanemail"` does exit with
status 1. -/
theorem C5_empty_email_skips_validation :
    is_valid_email "" = false ∧
    mainRun { email := some "", org_name := none, technology := none }
      (.response 404 []) = .didNothing ∧
    exitCode (mainRun { email := some "", org_name := none, technology := none }
      (.response 404 [])) = 0 ∧
    networkCalls (mainRun { email := some "", org_name := none, technology := none }
      (.response 404 [])) = 0 ∧
    mainRun { email := some "notanemail", org_name := none, technology := none }
      (.response 404 []) = .exited 1 :=
  ⟨rfl, rfl, rfl, rfl, rfl⟩

/-- C6: for every 404 response, `check_hibp` returns `None` (the
absence-of-result value), the only message emitted is an info-level
line (not an error), and no exception is raised (the function is total
on this branch). -/
theorem C6_404_returns_not_found (e : String) (body : List JObj) :
    (check_hibp e (.response 404 body)).result = none ∧
    (check_hibp e (.response 404 body)).events = [.notFoundInfo e] ∧
    (LogEvent.notFoundInfo e).level = .info :=
  ⟨rfl, rfl, rfl⟩

/-- C7: a whitespace-only organization string does exit with status 1
before the stub search, but the empty organization or technology string
— also empty after trimming — fails the truthiness tests
`elif args.org_name:` / `elif args.technology:`, so `main` falls
through every branch and ends normally with exit status 0 instead of
exiting with status 1 as the claim requires for every string that is
empty after trimming. -/
theorem C7_empty_org_skips_validation :
    mainRun { email := none, org_name := some "  ", technology := none }
      (.response 404 []) = .exited 1 ∧
    pyStrip "" = "" ∧
    mainRun { email := none, org_name := some "", technology := none }
      (.response 404 []) = .didNothing ∧
    exitCode (mainRun { email := none, org_name := some "", technology := none }
      (.response 404 [])) = 0 ∧
    mainRun { email := none, org_name := none, technology := some "" }
      (.response 404 []) = .didNothing :=
  ⟨rfl, rfl, rfl, rfl, rfl⟩

/-- C8 counterexample: for the regex-valid email `a+b@c.de` the URL the
code builds interpolates the email as-is, which differs from the path
with the email percent-encoded as the claim states (`+` would become
`%2B` and `@` would become `%40`). -/
theorem C8_email_not_url_encoded :
    is_valid_email "a+b@c.de" = true ∧
    (check_hibp "a+b@c.de" (.response 404 [])).requests = [mkRequest "a+b@c.de"] ∧
    (mkRequest "a+b@c.de").url ≠ hibpBase ++ specUrlEncode "a+b@c.de" :=
  ⟨rfl, rfl, by decide⟩

/-- C8 amended: for every email input and every outcome of the exchange,
exactly one GET request is issued, to
`https://haveibeenpwned.com/api/v3/breachedaccount/{email}` with the
email interpolated directly (not URL-encoded) into the path, and with
the header `hibp-api-key` always set to the literal placeholder
`anonymous` (the code has no key-configuration mechanism). -/
theorem C8_request_shape (e : String) (out : HttpOutcome) :
    (check_hibp e out).requests
      = [{ url := hibpBase ++ e, headers := [("hibp-api-key", "anonymous")] }] := by
  cases out with
  | transportError c => rfl
  | response s body =>
    simp only [check_hibp]
    split
    · split <;> rfl
    · split
      · rfl
      · split <;> rfl

/-- C9: providing more than one of email, organization and technology is
rejected by the mutually exclusive required argument group before any
component logic runs. -/
theorem C9_mutually_exclusive_rejected (e o t : Option String) (out : HttpOutcome)
    (h : 1 < providedCount e o t) :
    program e o t out = .argError := by
  simp [program, parse_args, h]

/-- C9 witness: email and organization together are rejected. -/
theorem C9_mutually_exclusive_rejected_witness :
    1 < providedCount (some "a@b.com") (some "ExampleOrg") none ∧
    program (some "a@b.com") (some "ExampleOrg") none (.response 404 []) = .argError :=
  ⟨by decide, C9_mutually_exclusive_rejected _ _ _ _ (by decide)⟩

/-- C10: for every 200 response whose body contains an object lacking
the `Name` field, the `KeyError` is caught by the generic handler and
`check_hibp` returns `None` — not a partial list of the names present —
and no exception propagates. -/
theorem C10_missing_name_returns_none (e : String) (body : List JObj) (o : JObj)
    (hmem : o ∈ body) (h : List.lookup "Name" o = none) :
    (check_hibp e (.response 200 body)).result = none := by
  obtain ⟨msg, hmsg⟩ := extractNames_err body ⟨o, hmem, h⟩
  simp [check_hibp, hmsg]

/-- C10 witness: the body `[{"Name":"Adobe"},{}]` yields `None`. -/
theorem C10_missing_name_returns_none_witness :
    ([] : JObj) ∈ ([[("Name", "Adobe")], []] : List JObj) ∧
    List.lookup "Name" ([] : JObj) = none ∧
    (check_hibp "a@b.com" (.response 200 [[("Name", "Adobe")], []])).result = none :=
  ⟨by decide, rfl,
   C10_missing_name_returns_none "a@b.com" [[("Name", "Adobe")], []] []
     (by decide) (by decide)⟩

end BreachAlarm
